import Mathlib

/-!
Shallow embedding of the LLM gateway of `src/orchestration/llm_gateway.py`
(`LLMMessage`, `LLMResponse`, provider adapters, `LLMGateway.generate`,
`LLMGateway.generate_simple`, `LLMGateway.get_provider_info`, and the
message-format conversion in `ClaudeProvider.generate`).

Conventions of the embedding:
* Python strings are `String`; Python float delays are `ℚ`; Python ints
  (the retry count, which may be negative) are `Int`.
* An adapter is modelled by a `behavior` function from the invocation
  index (how many times the adapter has been invoked before in this call)
  and the message list to `Except String LLMResponse`; the `String` is
  the message of the exception the Python adapter raises.
* Side effects of a `generate` call are recorded in a `Trace`: the list
  of message sequences the adapter received (one entry per invocation,
  in order) and the list of backoff sleep durations (in order).
* A raised Python exception is an `Except.error` value; `GenError` has
  one constructor per raise site of `LLMGateway.generate`.
-/

/-- Embeds the dataclass `LLMMessage` (role, content). -/
structure LLMMessage where
  role : String
  content : String
deriving DecidableEq

/-- Embeds `LLMMessage.to_dict`, the wire dict with keys role and content,
as a pair (role, content). -/
def LLMMessage.to_dict (m : LLMMessage) : String × String :=
  (m.role, m.content)

/-- Embeds the dataclass `LLMResponse`. `usage` and `metadata` default to
`none`, as the Python fields default to None; their values are modelled as
string key-value lists. -/
structure LLMResponse where
  content : String
  model : String
  provider : String
  usage : Option (List (String × String)) := none
  metadata : Option (List (String × String)) := none
deriving DecidableEq

/-- Python truthiness of a string: non-empty. -/
def pyStrTruthy (s : String) : Bool :=
  s != ""

/-- Python truthiness of an optional string: not None and non-empty. -/
def pyOptStrTruthy : Option String → Bool
  | none => false
  | some s => pyStrTruthy s

/-- An adapter registered with the gateway: its `get_provider_name()`
value, its `config` dict (values modelled as strings), and its `generate`
behavior, a function of the invocation index and the received messages. -/
structure LLMProvider where
  name : String
  config : List (String × String)
  behavior : Nat → List LLMMessage → Except String LLMResponse

/-- The observable side effects of one `LLMGateway.generate` call:
`calls` records the message list the adapter received at each invocation,
in order; `sleeps` records the backoff sleep durations, in order. -/
structure Trace where
  calls : List (List LLMMessage)
  sleeps : List ℚ
deriving DecidableEq

/-- The two raise sites of `LLMGateway.generate`: `noProvider` is the
`ValueError` at line 410 (no usable provider), and `exhausted rc le` is
the final `Exception` at line 439, which carries the retry count and the
last underlying error (None when no attempt ran) in its message. -/
inductive GenError where
  | noProvider : GenError
  | exhausted : Int → Option String → GenError
deriving DecidableEq

/-- The message string of the raised exception, exactly as formatted by
the Python source (f-strings at lines 410 and 439). -/
def GenError.message : GenError → String
  | GenError.noProvider => "没有可用的LLM提供商"
  | GenError.exhausted rc le =>
      "LLM调用失败，已重试" ++ toString rc ++ "次: " ++
        (match le with
         | some e => e
         | none => "None")

/-- Embeds the state of an `LLMGateway` instance after `initialize`:
the `providers` dict (association list, unique keys), the resolved
`default_provider`, and the retry configuration
(`config.get("retry_count", 3)` and `config.get("retry_delay", 1.0)`
are modelled by the stored effective values). -/
structure LLMGateway where
  providers : List (String × LLMProvider)
  defaultProvider : Option LLMProvider
  configRetryCount : Int
  configRetryDelay : ℚ

/-- Embeds the default-provider resolution of `LLMGateway.initialize`
(lines 326-341): `default_provider` becomes the registered adapter under
the configured name when present, and stays None otherwise. -/
def LLMGateway.initGateway (providers : List (String × LLMProvider))
    (defaultProviderName : String) (retryCount : Int) (retryDelay : ℚ) :
    LLMGateway :=
  { providers := providers
    defaultProvider := providers.lookup defaultProviderName
    configRetryCount := retryCount
    configRetryDelay := retryDelay }

/-- Embeds the provider-selection branch of `LLMGateway.generate`
(lines 404-410): an explicit truthy provider name found in the dict wins;
otherwise the default provider; otherwise no provider (the ValueError). -/
def selectProvider (gw : LLMGateway) (provider : Option String) :
    Option LLMProvider :=
  match provider with
  | some p =>
      if pyStrTruthy p && (gw.providers.lookup p).isSome then
        gw.providers.lookup p
      else
        gw.defaultProvider
  | none => gw.defaultProvider

/-- Embeds the retry loop of `LLMGateway.generate` (lines 419-435): one
recursive step per value of `attempt` in `range(retry_count)`. Before a
positive attempt index the loop sleeps `retry_delay * attempt`; then the
adapter is invoked; success returns immediately, failure stores the last
error and continues. An exhausted list yields the stored last error. -/
def runAttempts (behavior : Nat → List LLMMessage → Except String LLMResponse)
    (messages : List LLMMessage) (retryDelay : ℚ) :
    List Nat → Option String → Trace → Trace × Except (Option String) LLMResponse
  | [], lastError, tr => (tr, Except.error lastError)
  | a :: rest, _lastError, tr =>
      let tr1 : Trace :=
        if 0 < a then { tr with sleeps := tr.sleeps ++ [retryDelay * (a : ℚ)] }
        else tr
      let tr2 : Trace := { tr1 with calls := tr1.calls ++ [messages] }
      match behavior a messages with
      | Except.ok r => (tr2, Except.ok r)
      | Except.error e =>
          runAttempts behavior messages retryDelay rest (some e) tr2

/-- Embeds `LLMGateway.generate` (lines 385-439): provider selection,
effective retry count (`retry_count` argument, else the configured one),
the retry loop, and the final raise wrapping the retry count and the last
error when all attempts failed. -/
def LLMGateway.generate (gw : LLMGateway) (messages : List LLMMessage)
    (provider : Option String) (retry_count : Option Int) :
    Trace × Except GenError LLMResponse :=
  match selectProvider gw provider with
  | none => (⟨[], []⟩, Except.error GenError.noProvider)
  | some prov =>
      let rc : Int := retry_count.getD gw.configRetryCount
      let rd : ℚ := gw.configRetryDelay
      let pr := runAttempts prov.behavior messages rd
        (List.range rc.toNat) none ⟨[], []⟩
      match pr.2 with
      | Except.ok r => (pr.1, Except.ok r)
      | Except.error le => (pr.1, Except.error (GenError.exhausted rc le))

/-- Embeds `LLMGateway.generate_simple` (lines 441-468): builds the
message list imperatively (optional system turn when the prompt is truthy,
then the user turn), delegates to `generate` with no retry-count argument,
and projects the response to its content. -/
def LLMGateway.generate_simple (gw : LLMGateway)
    (system_prompt user_message : String) (provider : Option String) :
    Trace × Except GenError String :=
  let messages0 : List LLMMessage := []
  let messages1 : List LLMMessage :=
    if pyStrTruthy system_prompt then
      messages0 ++ [{ role := "system", content := system_prompt }]
    else
      messages0
  let messages : List LLMMessage :=
    messages1 ++ [{ role := "user", content := user_message }]
  let pr := LLMGateway.generate gw messages provider none
  (pr.1, Except.map LLMResponse.content pr.2)

/-- The message sequence the specification says `generate_simple` builds:
a system turn exactly when the prompt is non-empty, then one user turn. -/
def simpleMessages (system_prompt user_message : String) : List LLMMessage :=
  (if system_prompt ≠ "" then
    [{ role := "system", content := system_prompt }]
   else []) ++ [{ role := "user", content := user_message }]

/-- Whether the second character list starts with the first. -/
def charsStartWith : List Char → List Char → Bool
  | [], _ => true
  | _ :: _, [] => false
  | a :: as, b :: bs => a == b && charsStartWith as bs

/-- Whether the second character list contains the first as a contiguous
substring. -/
def charsContain (needle : List Char) : List Char → Bool
  | [] => needle.isEmpty
  | b :: bs => charsStartWith needle (b :: bs) || charsContain needle bs

/-- Embeds the masking test of `LLMGateway.get_provider_info` (line 482):
the Python expression is the substring test key in k.lower(). -/
def maskTest (k : String) : Bool :=
  charsContain "key".data (k.data.map Char.toLower)

/-- Embeds the dict comprehension of `LLMGateway.get_provider_info`
(lines 482-483): values under keys passing the masking test become
three asterisks, the rest are kept. -/
def maskedConfig (config : List (String × String)) : List (String × String) :=
  config.map fun kv => (kv.1, if maskTest kv.1 then "***" else kv.2)

/-- Embeds `LLMGateway.get_provider_info` (lines 474-484): the empty dict
(`none`) for an unregistered name, else the provider name together with
its masked config. -/
def LLMGateway.get_provider_info (gw : LLMGateway) (provider_name : String) :
    Option (String × List (String × String)) :=
  match gw.providers.lookup provider_name with
  | none => none
  | some p => some (p.name, maskedConfig p.config)

/-- One step of the message-format conversion loop in
`ClaudeProvider.generate` (lines 146-150): a system turn overwrites the
pending system message, every other turn is appended to the conversation
as its wire dict. -/
def claudeStep (acc : Option String × List (String × String))
    (msg : LLMMessage) : Option String × List (String × String) :=
  if msg.role = "system" then (some msg.content, acc.2)
  else (acc.1, acc.2 ++ [msg.to_dict])

/-- Embeds the whole conversion loop of `ClaudeProvider.generate`
(lines 142-150), starting from no system message and an empty
conversation. -/
def claudeConvert (messages : List LLMMessage) :
    Option String × List (String × String) :=
  messages.foldl claudeStep (none, [])

/-- Embeds the payload system field of `ClaudeProvider.generate`
(lines 159-160): the field is set only when the extracted system message
is truthy (not None and non-empty). -/
def claudePayloadSystem (messages : List LLMMessage) : Option String :=
  let sys := (claudeConvert messages).1
  if pyOptStrTruthy sys then sys else none

/-- The content of the last system-role message of a sequence, which is
what the specification says the dedicated system field carries. -/
def lastSystemContent (messages : List LLMMessage) : Option String :=
  ((messages.filter fun m => m.role == "system").getLast?).map
    LLMMessage.content

/-! ### General lemmas about the retry loop -/

/-- Processing a block of attempts that all fail extends the trace by one
call per attempt and one sleep per positive attempt index, and overwrites
the last error attempt by attempt. -/
theorem runAttempts_append_fail
    (behavior : Nat → List LLMMessage → Except String LLMResponse)
    (messages : List LLMMessage) (rd : ℚ) (f : Nat → String) :
    ∀ (l1 l2 : List Nat) (le : Option String) (tr : Trace),
      (∀ a ∈ l1, behavior a messages = Except.error (f a)) →
      runAttempts behavior messages rd (l1 ++ l2) le tr =
        runAttempts behavior messages rd l2
          (l1.foldl (fun _ a => some (f a)) le)
          ⟨tr.calls ++ l1.map (fun _ => messages),
           tr.sleeps ++ (l1.filter (fun a => decide (0 < a))).map
             (fun a => rd * (a : ℚ))⟩ := by
  intro l1
  induction l1 with
  | nil =>
      intro l2 le tr _
      simp [runAttempts]
  | cons a as ih =>
      intro l2 le tr h
      have ha : behavior a messages = Except.error (f a) := h a (by simp)
      have has : ∀ x ∈ as, behavior x messages = Except.error (f x) :=
        fun x hx => h x (by simp [hx])
      by_cases h0 : 0 < a
      · simp only [List.cons_append, runAttempts, ha, if_pos h0,
          List.append_eq]
        rw [ih (l2) (some (f a)) _ has]
        simp [h0, List.filter_cons]
      · simp only [List.cons_append, runAttempts, ha, if_neg h0,
          List.append_eq]
        rw [ih (l2) (some (f a)) _ has]
        simp [h0, List.filter_cons]

/-- The retry loop only appends to the call log, and every appended entry
is the message list of the call. -/
theorem runAttempts_calls_extend
    (behavior : Nat → List LLMMessage → Except String LLMResponse)
    (messages : List LLMMessage) (rd : ℚ) :
    ∀ (atts : List Nat) (le : Option String) (tr : Trace),
      ∃ new, (runAttempts behavior messages rd atts le tr).1.calls =
          tr.calls ++ new ∧
        (∀ c ∈ new, c = messages) ∧ (atts ≠ [] → 0 < new.length) := by
  intro atts
  induction atts with
  | nil =>
      intro le tr
      exact ⟨[], by simp [runAttempts], by simp, by simp⟩
  | cons a as ih =>
      intro le tr
      by_cases h0 : 0 < a
      · simp only [runAttempts, if_pos h0]
        cases hb : behavior a messages with
        | ok r =>
            exact ⟨[messages], by simp [hb], by simp, by simp⟩
        | error e =>
            obtain ⟨new, hnew, hall, _⟩ := ih (some e)
              ⟨tr.calls ++ [messages], tr.sleeps ++ [rd * (a : ℚ)]⟩
            refine ⟨[messages] ++ new, ?_, ?_, by simp⟩
            · simp only [hb]
              simpa using hnew
            · intro c hc
              rcases List.mem_append.1 hc with hc | hc
              · simpa using hc
              · exact hall c hc
      · simp only [runAttempts, if_neg h0]
        cases hb : behavior a messages with
        | ok r =>
            exact ⟨[messages], by simp [hb], by simp, by simp⟩
        | error e =>
            obtain ⟨new, hnew, hall, _⟩ := ih (some e)
              ⟨tr.calls ++ [messages], tr.sleeps⟩
            refine ⟨[messages] ++ new, ?_, ?_, by simp⟩
            · simp only [hb]
              simpa using hnew
            · intro c hc
              rcases List.mem_append.1 hc with hc | hc
              · simpa using hc
              · exact hall c hc

/-- Folding the overwrite-with-last-error function over `range n` yields
the error of the last attempt index. -/
theorem foldl_overwrite_range (f : Nat → String) (le : Option String)
    (n : Nat) (hn : 1 ≤ n) :
    (List.range n).foldl (fun _ a => some (f a)) le = some (f (n - 1)) := by
  obtain ⟨m, rfl⟩ : ∃ m, n = m + 1 := ⟨n - 1, by omega⟩
  rw [List.range_succ, List.foldl_append]
  simp

/-- When the adapter fails on every attempt index below `N - 1` and
succeeds at `N - 1`, the retry loop over `range maxA` (with
`1 ≤ N ≤ maxA`) stops at the success with exactly `N` recorded calls. -/
theorem runAttempts_range_ok
    (behavior : Nat → List LLMMessage → Except String LLMResponse)
    (messages : List LLMMessage) (rd : ℚ) (f : Nat → String)
    (r : LLMResponse) (N maxA : Nat) (h1 : 1 ≤ N) (h2 : N ≤ maxA)
    (hf : ∀ i, i < N - 1 → behavior i messages = Except.error (f i))
    (hok : behavior (N - 1) messages = Except.ok r) :
    ∃ tr : Trace,
      runAttempts behavior messages rd (List.range maxA) none ⟨[], []⟩ =
        (tr, Except.ok r) ∧ tr.calls.length = N := by
  have hNe : (N - 1) + (maxA - (N - 1)) = maxA := by omega
  have hMe : maxA - (N - 1) = (maxA - N) + 1 := by omega
  have hN1 : (N - 1) + 1 = N := by omega
  have hsplit : List.range maxA =
      List.range (N - 1) ++ ((N - 1) :: List.range' N (maxA - N)) := by
    have hcons : (N - 1) :: List.range' N (maxA - N) =
        List.range' (N - 1) ((maxA - N) + 1) := by
      rw [List.range'_succ, hN1]
    rw [List.range_eq_range', List.range_eq_range', hcons]
    have happ := List.range'_append_1 0 (N - 1) ((maxA - N) + 1)
    rw [Nat.zero_add] at happ
    rw [happ]
    congr 1
    omega
  rw [hsplit]
  rw [runAttempts_append_fail behavior messages rd f _ _ none ⟨[], []⟩
    (by intro a ha; exact hf a (List.mem_range.1 ha))]
  by_cases h0 : 0 < N - 1
  · simp only [runAttempts, if_pos h0, hok]
    refine ⟨_, rfl, ?_⟩
    simp
    omega
  · simp only [runAttempts, if_neg h0, hok]
    refine ⟨_, rfl, ?_⟩
    simp
    omega

/-- The trace of a `generate` call is the trace of its retry loop (empty
when no provider resolves). -/
theorem generate_fst (gw : LLMGateway) (msgs : List LLMMessage)
    (p : Option String) (rcOpt : Option Int) :
    (LLMGateway.generate gw msgs p rcOpt).1 =
      match selectProvider gw p with
      | none => ⟨[], []⟩
      | some prov =>
          (runAttempts prov.behavior msgs gw.configRetryDelay
            (List.range ((rcOpt.getD gw.configRetryCount).toNat))
            none ⟨[], []⟩).1 := by
  unfold LLMGateway.generate
  cases selectProvider gw p with
  | none => rfl
  | some prov =>
      simp only
      cases (runAttempts prov.behavior msgs gw.configRetryDelay
        (List.range ((rcOpt.getD gw.configRetryCount).toNat))
        none ⟨[], []⟩).2 with
      | ok r => rfl
      | error le => rfl

/-- Every message list handed to the adapter during a `generate` call is
exactly the message list that was passed to `generate`. -/
theorem generate_calls_eq (gw : LLMGateway) (msgs : List LLMMessage)
    (p : Option String) (rcOpt : Option Int) :
    ∀ c ∈ (LLMGateway.generate gw msgs p rcOpt).1.calls, c = msgs := by
  intro c hc
  rw [generate_fst] at hc
  cases hsel : selectProvider gw p with
  | none => rw [hsel] at hc; simp at hc
  | some prov =>
      rw [hsel] at hc
      obtain ⟨new, hnew, hall, -⟩ := runAttempts_calls_extend prov.behavior
        msgs gw.configRetryDelay
        (List.range ((rcOpt.getD gw.configRetryCount).toNat)) none ⟨[], []⟩
      rw [hnew] at hc
      exact hall c (by simpa using hc)

/-- The conversation list built by the Claude conversion loop is the
original non-system messages, in order, as wire dicts. -/
theorem claudeFold_snd :
    ∀ (msgs : List LLMMessage) (acc : Option String × List (String × String)),
      (msgs.foldl claudeStep acc).2 =
        acc.2 ++ (msgs.filter fun m => m.role != "system").map
          LLMMessage.to_dict := by
  intro msgs
  induction msgs with
  | nil => intro acc; simp
  | cons m rest ih =>
      intro acc
      by_cases hm : m.role = "system"
      · rw [List.foldl_cons, ih]
        simp [claudeStep, hm, List.filter_cons]
      · rw [List.foldl_cons, ih]
        simp [claudeStep, hm, List.filter_cons]

/-- The system message extracted by the Claude conversion loop is the
content of the last system turn, or the accumulator value when there is
no system turn. -/
theorem claudeFold_fst :
    ∀ (msgs : List LLMMessage) (acc : Option String × List (String × String)),
      (msgs.foldl claudeStep acc).1 =
        match lastSystemContent msgs with
        | some c => some c
        | none => acc.1 := by
  intro msgs
  induction msgs with
  | nil => intro acc; simp [lastSystemContent]
  | cons m rest ih =>
      intro acc
      rw [List.foldl_cons, ih]
      unfold lastSystemContent
      by_cases hm : m.role = "system"
      · have hb : (m.role == "system") = true := by simpa using hm
        simp only [List.filter_cons, hb, if_true, claudeStep, if_pos hm]
        cases hrest : rest.filter (fun x => x.role == "system") with
        | nil => simp [hrest]
        | cons b bs =>
            rw [List.getLast?_cons_cons]
            cases hxl : (b :: bs).getLast? with
            | none =>
                rw [List.getLast?_cons] at hxl
                simp at hxl
            | some x => simp
      · have hb : (m.role == "system") = false := by simpa using hm
        simp [List.filter_cons, hb, claudeStep, if_neg hm]

/-! ### Concrete fixtures used by witnesses and counterexamples -/

/-- A user turn used as a concrete input. -/
def userHi : LLMMessage :=
  { role := "user", content := "hi" }

/-- A concrete successful response. -/
def mockResponse : LLMResponse :=
  { content := "ok", model := "mock-gpt-3.5-turbo", provider := "mock" }

/-- An adapter that always succeeds with `mockResponse`. -/
def mockProvider : LLMProvider :=
  { name := "mock"
    config := [("api_key", "SECRET"), ("model", "m1"), ("monkey", "zoo")]
    behavior := fun _ _ => Except.ok mockResponse }

/-- An adapter that fails on every invocation, with a message naming the
invocation index. -/
def failingProvider : LLMProvider :=
  { name := "openai"
    config := [("api_key", "SECRET")]
    behavior := fun i _ => Except.error ("e" ++ toString i) }

/-- An adapter that fails on its first invocation and succeeds after. -/
def flakyProvider : LLMProvider :=
  { name := "kimi"
    config := []
    behavior := fun i _ =>
      if i < 1 then Except.error "boom" else Except.ok mockResponse }

/-- A gateway with the always-succeeding adapter registered under mock
and set as default; retry count 3, retry delay 1. -/
def gwMock : LLMGateway :=
  { providers := [("mock", mockProvider)]
    defaultProvider := some mockProvider
    configRetryCount := 3
    configRetryDelay := 1 }

/-- A gateway with the always-failing adapter registered under openai
and set as default; retry count 3, retry delay 2. -/
def gwFail : LLMGateway :=
  { providers := [("openai", failingProvider)]
    defaultProvider := some failingProvider
    configRetryCount := 3
    configRetryDelay := 2 }

/-- A gateway with the fail-once adapter registered under kimi and set
as default; retry count 3, retry delay 1. -/
def gwFlaky : LLMGateway :=
  { providers := [("kimi", flakyProvider)]
    defaultProvider := some flakyProvider
    configRetryCount := 3
    configRetryDelay := 1 }

/-! ### Claims -/

/-- C1 (counterexample): with provider name unknown, which is not a key
of the provider mapping, `generate` does not raise: it falls back to the
configured default provider and invokes its adapter once, returning the
adapter response. This contradicts the claim that an unknown explicit
provider name raises ProviderNotFoundError without invoking any adapter
and without falling back to the default. -/
theorem c1_counterexample :
    gwMock.providers.lookup "unknown" = none ∧
    gwMock.defaultProvider = some mockProvider ∧
    LLMGateway.generate gwMock [userHi] (some "unknown") none =
      (⟨[[userHi]], []⟩, Except.ok mockResponse) :=
  ⟨rfl, rfl, rfl⟩

/-- C1 (amended): for every call to `generate` with an explicit provider
name that is not a key of the provider mapping, the call behaves exactly
as if the provider argument had been omitted: it falls back to the
configured default provider, and raises (a ValueError, there being no
ProviderNotFoundError type) only when no default provider is set. -/
theorem c1_unknown_provider_falls_back (gw : LLMGateway)
    (msgs : List LLMMessage) (p : String) (rcOpt : Option Int)
    (h : gw.providers.lookup p = none) :
    LLMGateway.generate gw msgs (some p) rcOpt =
      LLMGateway.generate gw msgs none rcOpt := by
  simp [LLMGateway.generate, selectProvider, h]

/-- C1 (witness): the amended theorem applied to the concrete gateway
and the unregistered name unknown. -/
theorem c1_witness :
    gwMock.providers.lookup "unknown" = none ∧
    LLMGateway.generate gwMock [userHi] (some "unknown") none =
      LLMGateway.generate gwMock [userHi] none none :=
  ⟨rfl, c1_unknown_provider_falls_back gwMock [userHi] "unknown" none rfl⟩

/-- C2 (counterexample): for the empty message sequence, `generate` does
not raise any error: the adapter is invoked once, receiving the empty
sequence, and its response is returned. This contradicts the claim that
`generate` raises InvalidArgumentError immediately without invoking any
adapter. -/
theorem c2_counterexample :
    LLMGateway.generate gwMock [] none none =
      (⟨[[]], []⟩, Except.ok mockResponse) :=
  rfl

/-- C2 (amended): `generate` performs no validation of the message list:
whenever a provider resolves and the effective retry count is at least 1,
the empty message sequence is forwarded unchanged to the adapter (the
first recorded adapter invocation receives the empty sequence, and every
recorded invocation receives exactly the empty sequence). -/
theorem c2_empty_messages_forwarded (gw : LLMGateway) (prov : LLMProvider)
    (p : Option String) (rcOpt : Option Int)
    (hsel : selectProvider gw p = some prov)
    (hrc : 1 ≤ rcOpt.getD gw.configRetryCount) :
    (∃ rest, (LLMGateway.generate gw [] p rcOpt).1.calls = [] :: rest) ∧
    ∀ c ∈ (LLMGateway.generate gw [] p rcOpt).1.calls,
      c = ([] : List LLMMessage) := by
  refine ⟨?_, generate_calls_eq gw [] p rcOpt⟩
  rw [generate_fst, hsel]
  obtain ⟨k, hk⟩ : ∃ k, (rcOpt.getD gw.configRetryCount).toNat = k + 1 :=
    ⟨(rcOpt.getD gw.configRetryCount).toNat - 1, by omega⟩
  rw [hk, List.range_eq_range', List.range'_succ]
  cases hb : prov.behavior 0 [] with
  | ok r =>
      refine ⟨[], ?_⟩
      simp [runAttempts, hb]
  | error e =>
      obtain ⟨new, hnew, -, -⟩ := runAttempts_calls_extend prov.behavior []
        gw.configRetryDelay (List.range' (0 + 1) k) (some e) ⟨[[]], []⟩
      refine ⟨new, ?_⟩
      simp only [runAttempts, hb, Nat.lt_irrefl, if_false]
      simpa using hnew

/-- C2 (witness): the amended theorem applied to the concrete gateway. -/
theorem c2_witness :
    selectProvider gwMock none = some mockProvider ∧
    (∃ rest, (LLMGateway.generate gwMock [] none none).1.calls = [] :: rest) ∧
    ∀ c ∈ (LLMGateway.generate gwMock [] none none).1.calls,
      c = ([] : List LLMMessage) :=
  ⟨rfl, c2_empty_messages_forwarded gwMock mockProvider none none rfl
    (by decide)⟩

/-- C7: with no explicit provider, when the configured default provider
name is not a key of the provider mapping (which covers the no-default
case, since the unresolved default stays None), `generate` raises
immediately (the ValueError at line 410, the error the specification
names ConfigurationError): no adapter call, no sleep, no retry, and no
other registered provider is selected. -/
theorem c7_missing_default_fails_fast (ps : List (String × LLMProvider))
    (dn : String) (rc : Int) (rd : ℚ) (msgs : List LLMMessage)
    (rcOpt : Option Int) (h : ps.lookup dn = none) :
    (LLMGateway.initGateway ps dn rc rd).defaultProvider = none ∧
    LLMGateway.generate (LLMGateway.initGateway ps dn rc rd) msgs none rcOpt =
      (⟨[], []⟩, Except.error GenError.noProvider) := by
  refine ⟨by simp [LLMGateway.initGateway, h], ?_⟩
  simp [LLMGateway.generate, selectProvider, LLMGateway.initGateway, h]

/-- C7 (witness): a gateway initialized with default name openai while
only claude is registered fails fast with the no-provider error and an
empty trace, without selecting the registered claude adapter. -/
theorem c7_witness :
    (([("claude", mockProvider)] :
      List (String × LLMProvider)).lookup "openai" = none) ∧
    LLMGateway.generate
        (LLMGateway.initGateway [("claude", mockProvider)] "openai" 3 1)
        [userHi] none none =
      (⟨[], []⟩, Except.error GenError.noProvider) :=
  ⟨rfl, (c7_missing_default_fails_fast [("claude", mockProvider)] "openai"
    3 1 [userHi] none rfl).2⟩

/-- C10: with a resolved provider and an effective retry count that is
zero or negative, `generate` raises without invoking the adapter and
without any backoff sleep, and the wrapped last underlying error is
absent (None). -/
theorem c10_nonpositive_retry_no_attempt (gw : LLMGateway)
    (prov : LLMProvider) (msgs : List LLMMessage) (rc : Int)
    (hd : gw.defaultProvider = some prov) (hrc : rc ≤ 0) :
    LLMGateway.generate gw msgs none (some rc) =
      (⟨[], []⟩, Except.error (GenError.exhausted rc none)) := by
  have h0 : rc.toNat = 0 := by omega
  simp [LLMGateway.generate, selectProvider, hd, h0, runAttempts]

/-- C10 (witness): the theorem applied at retry count -2 on the concrete
always-failing gateway. -/
theorem c10_witness :
    gwFail.defaultProvider = some failingProvider ∧
    LLMGateway.generate gwFail [userHi] none (some (-2)) =
      (⟨[], []⟩, Except.error (GenError.exhausted (-2) none)) :=
  ⟨rfl, c10_nonpositive_retry_no_attempt gwFail failingProvider [userHi]
    (-2) rfl (by decide)⟩

/-- C3: with a resolved default adapter that always fails and a
configured retry count of 3 with base delay base, `generate` invokes the
adapter exactly 3 times (each receiving the same messages), raises the
exhaustion error after the third attempt, and performs exactly two
backoff sleeps of durations base * 1 and base * 2, whose total is
base * 1 + base * 2. -/
theorem c3_three_attempts_two_backoffs (gw : LLMGateway)
    (prov : LLMProvider) (msgs : List LLMMessage) (f : Nat → String)
    (base : ℚ)
    (hd : gw.defaultProvider = some prov)
    (hb : prov.behavior = fun i _ => Except.error (f i))
    (hrc : gw.configRetryCount = 3)
    (hrd : gw.configRetryDelay = base) :
    LLMGateway.generate gw msgs none none =
      (⟨[msgs, msgs, msgs], [base * 1, base * 2]⟩,
       Except.error (GenError.exhausted 3 (some (f 2)))) ∧
    ([base * 1, base * 2] : List ℚ).sum = base * 1 + base * 2 := by
  have hsel : selectProvider gw none = some prov := by
    simp [selectProvider, hd]
  constructor
  · have hr : List.range ((3 : Int)).toNat = [0, 1, 2] := rfl
    simp only [LLMGateway.generate, hsel, Option.getD_none, hrc, hrd, hb, hr]
    norm_num [runAttempts]
  · simp

/-- C3 (witness): the theorem applied to the concrete always-failing
gateway with retry delay 2. -/
theorem c3_witness :
    LLMGateway.generate gwFail [userHi] none none =
      (⟨[[userHi], [userHi], [userHi]], [(2 : ℚ) * 1, 2 * 2]⟩,
       Except.error (GenError.exhausted 3 (some "e2"))) ∧
    ([(2 : ℚ) * 1, 2 * 2] : List ℚ).sum = (2 : ℚ) * 1 + 2 * 2 :=
  c3_three_attempts_two_backoffs gwFail failingProvider [userHi]
    (fun i => "e" ++ toString i) 2 rfl rfl rfl rfl

/-- C4: with a resolved default adapter that fails on the first N - 1
invocations and succeeds on the N-th, and N at most the configured
maximum number of attempts, `generate` returns the successful response
and the adapter is invoked exactly N times (no attempt after the
success). -/
theorem c4_success_stops_retrying (gw : LLMGateway) (prov : LLMProvider)
    (msgs : List LLMMessage) (f : Nat → String) (r : LLMResponse)
    (N maxA : Nat)
    (hd : gw.defaultProvider = some prov)
    (hrc : gw.configRetryCount = (maxA : Int))
    (h1 : 1 ≤ N) (h2 : N ≤ maxA)
    (hf : ∀ i, i < N - 1 → prov.behavior i msgs = Except.error (f i))
    (hok : prov.behavior (N - 1) msgs = Except.ok r) :
    ∃ tr : Trace,
      LLMGateway.generate gw msgs none none = (tr, Except.ok r) ∧
        tr.calls.length = N := by
  have hsel : selectProvider gw none = some prov := by
    simp [selectProvider, hd]
  have htn : ((maxA : Int)).toNat = maxA := by omega
  obtain ⟨tr, htr, hlen⟩ := runAttempts_range_ok prov.behavior msgs
    gw.configRetryDelay f r N maxA h1 h2 hf hok
  refine ⟨tr, ?_, hlen⟩
  simp only [LLMGateway.generate, hsel, Option.getD_none, hrc, htn, htr]

/-- C4 (witness): the theorem applied to the fail-once adapter, with
N = 2 and 3 configured attempts. -/
theorem c4_witness :
    ∃ tr : Trace,
      LLMGateway.generate gwFlaky [userHi] none none =
        (tr, Except.ok mockResponse) ∧ tr.calls.length = 2 :=
  c4_success_stops_retrying gwFlaky flakyProvider [userHi]
    (fun _ => "boom") mockResponse 2 3 rfl rfl (by decide) (by decide)
    (by
      intro i hi
      have h0 : i = 0 := by omega
      subst h0
      rfl)
    rfl

/-- C5 (counterexample): after exhausting all 3 attempts against the
always-failing adapter selected explicitly as openai, the raised error
wraps the retry count and the last underlying error, but its message
does not contain the provider name openai anywhere, so the claim that
the error wraps the provider name fails. -/
theorem c5_counterexample :
    (LLMGateway.generate gwFail [userHi] (some "openai") none).2 =
      Except.error (GenError.exhausted 3 (some "e2")) ∧
    charsContain "openai".data
      (GenError.message (GenError.exhausted 3 (some "e2"))).data = false :=
  ⟨rfl, by decide⟩

/-- C5 (amended): when every attempt fails, `generate` raises a plain
exception (no dedicated GatewayError type exists) wrapping the retry
count and the last underlying adapter error; the provider name is not
part of the error. -/
theorem c5_exhaustion_wraps_count_and_last_error (gw : LLMGateway)
    (prov : LLMProvider) (msgs : List LLMMessage) (f : Nat → String)
    (n : Nat)
    (hd : gw.defaultProvider = some prov)
    (hb : prov.behavior = fun i _ => Except.error (f i))
    (hrc : gw.configRetryCount = (n : Int)) (hn : 1 ≤ n) :
    (LLMGateway.generate gw msgs none none).2 =
      Except.error (GenError.exhausted (n : Int) (some (f (n - 1)))) ∧
    (LLMGateway.generate gw msgs none none).1.calls.length = n := by
  have hsel : selectProvider gw none = some prov := by
    simp [selectProvider, hd]
  have htn : ((n : Int)).toNat = n := by omega
  have hfail : ∀ a ∈ List.range n, prov.behavior a msgs =
      Except.error (f a) := by
    intro a _
    rw [hb]
  have happ := runAttempts_append_fail prov.behavior msgs
    gw.configRetryDelay f (List.range n) [] none ⟨[], []⟩ hfail
  rw [List.append_nil] at happ
  have hfold := foldl_overwrite_range f none n hn
  constructor
  · simp only [LLMGateway.generate, hsel, Option.getD_none, hrc, htn,
      happ, hfold, runAttempts]
  · simp only [LLMGateway.generate, hsel, Option.getD_none, hrc, htn,
      happ, hfold, runAttempts]
    simp

/-- C5 (witness): the amended theorem applied to the concrete
always-failing gateway with 3 attempts. -/
theorem c5_witness :
    (LLMGateway.generate gwFail [userHi] none none).2 =
      Except.error (GenError.exhausted 3 (some "e2")) ∧
    (LLMGateway.generate gwFail [userHi] none none).1.calls.length = 3 :=
  c5_exhaustion_wraps_count_and_last_error gwFail failingProvider [userHi]
    (fun i => "e" ++ toString i) 3 rfl rfl rfl (by decide)

/-- C6: `generate_simple` hands to `generate` the message sequence that
contains a system turn with the prompt exactly when the prompt is
non-empty, followed by exactly one user turn, and returns the content
projection of the `generate` result; every adapter invocation receives
exactly that sequence. For the empty prompt the sequence is the single
user turn. -/
theorem c6_generate_simple_builds_messages (gw : LLMGateway)
    (sp um : String) (p : Option String) :
    LLMGateway.generate_simple gw sp um p =
      ((LLMGateway.generate gw (simpleMessages sp um) p none).1,
       Except.map LLMResponse.content
         (LLMGateway.generate gw (simpleMessages sp um) p none).2) ∧
    (sp = "" → simpleMessages sp um = [{ role := "user", content := um }]) ∧
    (sp ≠ "" → simpleMessages sp um =
      [{ role := "system", content := sp },
       { role := "user", content := um }]) ∧
    ∀ c ∈ (LLMGateway.generate_simple gw sp um p).1.calls,
      c = simpleMessages sp um := by
  have heq : LLMGateway.generate_simple gw sp um p =
      ((LLMGateway.generate gw (simpleMessages sp um) p none).1,
       Except.map LLMResponse.content
         (LLMGateway.generate gw (simpleMessages sp um) p none).2) := by
    by_cases h : sp = "" <;>
      simp [LLMGateway.generate_simple, simpleMessages, pyStrTruthy, h]
  refine ⟨heq, fun h => by simp [simpleMessages, h],
    fun h => by simp [simpleMessages, h], ?_⟩
  intro c hc
  rw [heq] at hc
  exact generate_calls_eq gw (simpleMessages sp um) p none c hc

/-- C6 (witness): for the empty system prompt the built sequence is the
single user turn, and the concrete call agrees with `generate` plus the
content projection. -/
theorem c6_witness :
    simpleMessages "" "hi" = [{ role := "user", content := "hi" }] ∧
    LLMGateway.generate_simple gwMock "" "hi" none =
      ((LLMGateway.generate gwMock (simpleMessages "" "hi") none none).1,
       Except.map LLMResponse.content
         (LLMGateway.generate gwMock (simpleMessages "" "hi") none none).2) :=
  ⟨(c6_generate_simple_builds_messages gwMock "" "hi" none).2.1 rfl,
   (c6_generate_simple_builds_messages gwMock "" "hi" none).1⟩

/-- C8 (counterexample): for a sequence whose only system turn has empty
content, a system message is present (the last system content is the
empty string), yet the payload carries no system field, contradicting
the claim that the payload contains a system field equal to the content
of the last system message whenever at least one system message is
present. The conversation part still holds. -/
theorem c8_counterexample :
    lastSystemContent [{ role := "system", content := "" }, userHi] =
      some "" ∧
    claudePayloadSystem [{ role := "system", content := "" }, userHi] =
      none ∧
    (claudeConvert [{ role := "system", content := "" }, userHi]).2 =
      [("user", "hi")] :=
  ⟨rfl, rfl, rfl⟩

/-- C8 (amended): the Claude request conversion keeps exactly the
non-system turns, in order, as wire dicts; the extracted system message
is the content of the last system turn; and the payload carries a system
field equal to that content exactly when it is non-empty (an empty last
system content, like no system turn at all, yields no system field). -/
theorem c8_claude_system_extraction (msgs : List LLMMessage) :
    (claudeConvert msgs).2 =
      (msgs.filter fun m => m.role != "system").map LLMMessage.to_dict ∧
    (claudeConvert msgs).1 = lastSystemContent msgs ∧
    claudePayloadSystem msgs =
      (match lastSystemContent msgs with
       | some s => if s ≠ "" then some s else none
       | none => none) := by
  have h2 := claudeFold_snd msgs (none, [])
  have h1 := claudeFold_fst msgs (none, [])
  refine ⟨by simpa [claudeConvert] using h2, ?_, ?_⟩
  · unfold claudeConvert
    rw [h1]
    cases lastSystemContent msgs <;> rfl
  · unfold claudePayloadSystem claudeConvert
    rw [h1]
    cases h : lastSystemContent msgs with
    | none => rfl
    | some s =>
        by_cases hs : s = ""
        · simp [pyOptStrTruthy, pyStrTruthy, hs]
        · simp [pyOptStrTruthy, pyStrTruthy, hs]

/-- C9: `get_provider_info` returns the empty dict for an unregistered
name; for a registered provider it returns the provider name together
with its config where exactly the entries whose key contains the
substring key (after lowercasing) are replaced by three asterisks and
all other entries keep their original values. -/
theorem c9_provider_info_masks_keys (gw : LLMGateway) (name : String) :
    (gw.providers.lookup name = none →
      LLMGateway.get_provider_info gw name = none) ∧
    ∀ p, gw.providers.lookup name = some p →
      LLMGateway.get_provider_info gw name =
        some (p.name, maskedConfig p.config) ∧
      maskedConfig p.config =
        p.config.map
          (fun kv => (kv.1, if maskTest kv.1 then "***" else kv.2)) ∧
      ∀ k v, (k, v) ∈ p.config →
        (k, if maskTest k then "***" else v) ∈ maskedConfig p.config := by
  constructor
  · intro h
    simp [LLMGateway.get_provider_info, h]
  · intro p hp
    refine ⟨by simp [LLMGateway.get_provider_info, hp], rfl, ?_⟩
    intro k v hkv
    exact List.mem_map_of_mem _ hkv

/-- C9 (witness): on the concrete gateway, the unregistered name yields
the empty result; the registered mock provider has its api_key and
monkey entries masked (both contain key) while model is kept. -/
theorem c9_witness :
    LLMGateway.get_provider_info gwMock "nope" = none ∧
    LLMGateway.get_provider_info gwMock "mock" =
      some ("mock",
        [("api_key", "***"), ("model", "m1"), ("monkey", "***")]) ∧
    ("model", "m1") ∈ maskedConfig mockProvider.config := by
  refine ⟨(c9_provider_info_masks_keys gwMock "nope").1 rfl, ?_, ?_⟩
  · rw [((c9_provider_info_masks_keys gwMock "mock").2 mockProvider rfl).1]
    rfl
  · exact ((c9_provider_info_masks_keys gwMock "mock").2 mockProvider
      rfl).2.2 "model" "m1" (by decide)
